import Mathlib

/-!
# Verification of the vehicle production flow dashboard

Shallow embedding of the logical core of `flowprog-1.py`: the station
sequence, the vehicle record, VIN normalization/validation, the
"Update Status" handler, the "Update Bulk Status" handler, the "Add
Vehicle" record construction, and the `load_data` header initialization.

Statuses are the strings `"Completed"`, `"In Progress"`, `"Repair Needed"`
and the empty string in the sheet; we embed them as an inductive type.
Timestamps (`datetime.now()`) are embedded as an abstract `Nat` passed in
as `now`.  Per-station status/time columns of a row are embedded
positionally: index `i` of `lineStatus`/`lineTime` is the column of
station `PRODUCTION_LINES[i]` (station names are distinct, so the keyed
and the positional view agree).
-/

/-- The 14 production lines, in order (`PRODUCTION_LINES` in the source). -/
def PRODUCTION_LINES : List String :=
  ["Body Shop", "Paint", "TRIM", "UB", "FINAL",
   "Odyssi", "Wheel Alignment", "ADAS", "PQG",
   "Tests Track", "CC4", "DVX", "Audit", "Delivery"]

/-- Station status as stored in a row's per-line cell: `""` (unset),
`"In Progress"`, `"Completed"`, `"Repair Needed"`. -/
inductive Status where
  | unset
  | inProgress
  | completed
  | repairNeeded
deriving DecidableEq

/-- One row of the sheet: a vehicle record.  `lineStatus`/`lineTime` are the
per-station columns, positionally aligned with `PRODUCTION_LINES`;
`lineTime[i] = none` embeds the empty-string cell. -/
structure Vehicle where
  vin : List Char
  model : String
  currentLine : String
  startTime : Nat
  lastUpdated : Nat
  lineStatus : List Status
  lineTime : List (Option Nat)
deriving DecidableEq

/-- `PRODUCTION_LINES.index(L)` as a column index (length if absent;
in the handlers `L` is always a member). -/
def lineIdx (L : String) : Nat := PRODUCTION_LINES.findIdx (fun x => x == L)

/-- First-occurrence successor in a list: the recursion computing
`lines[lines.index(c) + 1]` when that index exists, else `None`. -/
def nextAfter : List String → String → Option String
  | [], _ => none
  | x :: xs, c => if x = c then xs.head? else nextAfter xs c

/-- `get_next_line` from the source: the line after `current_line` in
`PRODUCTION_LINES`; `None` at the last position and (via the caught
`ValueError`) for a string not in the list. -/
def get_next_line (current_line : String) : Option String :=
  nextAfter PRODUCTION_LINES current_line

/-- `df.at[idx, L] = s` for a status column. -/
def setStatus (v : Vehicle) (L : String) (s : Status) : Vehicle :=
  { v with lineStatus := v.lineStatus.set (lineIdx L) s }

/-- `df.at[idx, f"{L}_time"] = now`. -/
def setTime (v : Vehicle) (L : String) (now : Nat) : Vehicle :=
  { v with lineTime := v.lineTime.set (lineIdx L) (some now) }

/-- Result of the "Update Status" button handler on one row:
the (possibly) mutated row, and whether the
"already reached the final line" error was displayed. -/
structure UpdateOutcome where
  record : Vehicle
  finalLineError : Bool
deriving DecidableEq

/-- The "Update Status" button handler (source lines 297–319), acting on the
row of the selected VIN.  `update_line` is the user-selected production line,
`v.currentLine` is the row's `Current Line`.  Mirrors the source
statement-for-statement, including that `Last Updated` is assigned on every
path (line 316), also after the final-line error. -/
def updateStatus (v : Vehicle) (update_line : String) (new_status : Status)
    (now : Nat) : UpdateOutcome :=
  if new_status = Status.completed then
    match get_next_line v.currentLine with
    | some next_line =>
      let v1 := setTime (setStatus v update_line Status.completed) update_line now
      let v2 := { v1 with currentLine := next_line }
      let v3 := setTime v2 next_line now
      let v4 := setTime (setStatus v3 next_line Status.inProgress) next_line now
      { record := { v4 with lastUpdated := now }, finalLineError := false }
    | none =>
      { record := { v with lastUpdated := now }, finalLineError := true }
  else
    let v1 := setTime (setStatus v update_line new_status) update_line now
    { record := { v1 with lastUpdated := now }, finalLineError := false }

/-- One iteration of the "Update Bulk Status" loop body (source lines
352–367) on a found row: same logic as `updateStatus`, but the target line
is always the row's own `Current Line`, and on the final line with
`Completed` nothing is changed except `Last Updated` (there is no `else`
branch for `if next_line:` in the bulk loop, and no error message). -/
def bulkStep (new_status : Status) (now : Nat) (v : Vehicle) : Vehicle :=
  if new_status = Status.completed then
    match get_next_line v.currentLine with
    | some next_line =>
      let v1 := setTime (setStatus v v.currentLine Status.completed) v.currentLine now
      let v2 := { v1 with currentLine := next_line }
      let v3 := setTime v2 next_line now
      let v4 := setTime (setStatus v3 next_line Status.inProgress) next_line now
      { v4 with lastUpdated := now }
    | none => { v with lastUpdated := now }
  else
    let v1 := setTime (setStatus v v.currentLine new_status) v.currentLine now
    { v1 with lastUpdated := now }

/-- Update the first element satisfying `p` (that is what
`df[df["VIN"] == vin].index[0]` addresses), leaving the rest alone. -/
def modifyFirst (p : Vehicle → Bool) (f : Vehicle → Vehicle) :
    List Vehicle → List Vehicle
  | [] => []
  | x :: xs => if p x then f x :: xs else x :: modifyFirst p f xs

/-- Python `c.isspace()`-style test as used by `str.strip()`; embedded with
the core whitespace predicate (the VINs at issue are ASCII). -/
def pyIsSpace (c : Char) : Bool := c.isWhitespace

/-- Remove leading whitespace (`str.lstrip()`). -/
def lstripChars : List Char → List Char
  | [] => []
  | c :: cs => if pyIsSpace c then lstripChars cs else c :: cs

/-- Python `str.strip()`: drop whitespace from both ends. -/
def pystrip (s : List Char) : List Char :=
  (lstripChars (lstripChars s).reverse).reverse

/-- Python `str.upper()` on ASCII text, character by character. -/
def upperChars (s : List Char) : List Char := s.map Char.toUpper

/-- Python `str.zfill(n)`: left-pad with `'0'` up to length `n`. -/
def zfill (n : Nat) (s : List Char) : List Char :=
  List.replicate (n - s.length) '0' ++ s

/-- The VIN normalization applied by the Add Vehicle form:
`raw.strip().upper()` (line 260) then `.zfill(5).upper()` (line 268). -/
def normalizeVin (raw : List Char) : List Char :=
  upperChars (zfill 5 (upperChars (pystrip raw)))

/-- VIN validation of the Add Vehicle handler (lines 260–273): normalize,
then reject (`"VIN must be exactly 5 characters."`) iff the normalized
string does not have length 5.  `none` embeds the `InvalidFormat` error. -/
def validate_id (raw : List Char) : Option (List Char) :=
  let cleaned := normalizeVin raw
  if cleaned.length = 5 then some cleaned else none

/-- The per-VIN normalization of the bulk handler (line 349):
`vin.strip().zfill(5)` after the whole text area was uppercased
(line 344); uppercasing the whole input and uppercasing each
comma-separated token agree, since `upper` fixes `','`. -/
def bulkNormVin (raw : List Char) : List Char :=
  zfill 5 (pystrip (upperChars raw))

/-- The "Update Bulk Status" handler (source lines 347–370): for each
entered VIN in order, if some row has that VIN, mutate the first such row
with `bulkStep`; unknown VINs match no row and are skipped without any
report.  Returns the final table together with the count announced by the
success message, `len(vins)` — every entered VIN is counted, found or not. -/
def bulkUpdate (store : List Vehicle) (raws : List (List Char))
    (new_status : Status) (now : Nat) : List Vehicle × Nat :=
  let vins := raws.map bulkNormVin
  (vins.foldl (fun st vin =>
      if st.any (fun v => v.vin == vin) then
        modifyFirst (fun v => v.vin == vin) (bulkStep new_status now) st
      else st) store,
   vins.length)

/-- Record constructed by the Add Vehicle handler (source lines 275–285):
`Current Line` is `"Body Shop"`, each line's status is `In Progress` for
`"Body Shop"` and unset otherwise, likewise its time cell. -/
def mkVehicle (vin : List Char) (model : String) (startTime now : Nat) :
    Vehicle :=
  { vin := vin
    model := model
    currentLine := "Body Shop"
    startTime := startTime
    lastUpdated := now
    lineStatus := PRODUCTION_LINES.map
      (fun line => if line = "Body Shop" then Status.inProgress else Status.unset)
    lineTime := PRODUCTION_LINES.map
      (fun line => if line = "Body Shop" then some now else none) }

/-- The header columns built by `load_data` (source lines 62–65): the five
base columns, then, per production line, the line column and its
`_time` column. -/
def header_columns : List String :=
  PRODUCTION_LINES.foldl
    (fun cols line => cols ++ [line, line ++ "_time"])
    ["VIN", "Model", "Current Line", "Start Time", "Last Updated"]

/-- The argument of `sheet.update` in the empty-table branch of `load_data`
(source line 67): `[list(empty_df.columns)] + [[]]` — the header row
followed by one empty row. -/
def load_data_init_payload : List (List String) :=
  [header_columns] ++ [[]]

/-- gspread semantics of `sheet.update(payload)`: the cells written are the
`(row, column, value)` triples present in the payload; an empty row list
contributes no cells. -/
def sheet_update_cells (payload : List (List String)) :
    List (Nat × Nat × String) :=
  (payload.enum.map
    (fun p => p.2.enum.map (fun q => (p.1, q.1, q.2)))).flatten

/-- A record sitting at `"Paint"` (position 1), `"Body Shop"` already
completed: a typical mid-sequence row used to instantiate the theorems. -/
def samplePaint : Vehicle :=
  { vin := ['0', '0', '0', '0', '1']
    model := "C43"
    currentLine := "Paint"
    startTime := 0
    lastUpdated := 0
    lineStatus := Status.completed :: Status.inProgress ::
      List.replicate 12 Status.unset
    lineTime := some 0 :: some 1 :: List.replicate 12 none }

/-- A record sitting at `"Delivery"`, the last production line, with every
earlier line completed. -/
def sampleDelivery : Vehicle :=
  { vin := ['0', '0', '0', '0', '2']
    model := "C43"
    currentLine := "Delivery"
    startTime := 0
    lastUpdated := 0
    lineStatus := List.replicate 13 Status.completed ++ [Status.inProgress]
    lineTime := List.replicate 14 (some 0) }

/-! ## Helper lemmas -/

theorem lineIdx_at_pos : ∀ i < PRODUCTION_LINES.length,
    lineIdx (PRODUCTION_LINES.getD i "") = i := by decide

theorem gnl_at_pos : ∀ i < PRODUCTION_LINES.length,
    get_next_line (PRODUCTION_LINES.getD i "") = PRODUCTION_LINES[i + 1]? := by
  decide

theorem nextAfter_eq_none_of_not_mem (l : List String) (s : String) (h : s ∉ l) :
    nextAfter l s = none := by
  induction l with
  | nil => rfl
  | cons x xs ih =>
    simp only [List.mem_cons, not_or] at h
    show (if x = s then xs.head? else nextAfter xs s) = none
    rw [if_neg (fun hxs => h.1 hxs.symm)]
    exact ih h.2

theorem prod_lines_lt_of_getElem? {i : Nat} {S : String}
    (h : PRODUCTION_LINES[i]? = some S) : i < PRODUCTION_LINES.length := by
  by_contra hlt
  rw [List.getElem?_eq_none (Nat.le_of_not_lt hlt)] at h
  cases h

theorem prod_lines_getD {i : Nat} {S : String}
    (h : PRODUCTION_LINES[i]? = some S) : PRODUCTION_LINES.getD i "" = S := by
  rw [List.getD_eq_getElem?_getD, h]
  rfl

theorem lineIdx_of_getElem? {i : Nat} {S : String}
    (h : PRODUCTION_LINES[i]? = some S) : lineIdx S = i := by
  rw [← prod_lines_getD h]
  exact lineIdx_at_pos i (prod_lines_lt_of_getElem? h)

theorem gnl_of_getElem? {i : Nat} {S : String}
    (h : PRODUCTION_LINES[i]? = some S) :
    get_next_line S = PRODUCTION_LINES[i + 1]? := by
  rw [← prod_lines_getD h]
  exact gnl_at_pos i (prod_lines_lt_of_getElem? h)

/-! ## C10: totality of `get_next_line` -/

/-- C10: `get_next_line` is a total function (it never raises: the
`ValueError` of `index` is caught): at every non-last position of the
sequence it returns the immediate successor, and it returns `none` both for
the last line `"Delivery"` and for any string not in the sequence — an
unknown station is indistinguishable from the last one, there is no
`UnknownStation` error. -/
theorem c10_get_next_line_total (s : String) :
    (∀ i : Nat, PRODUCTION_LINES[i]? = some s →
      get_next_line s = PRODUCTION_LINES[i + 1]?) ∧
    (s ∉ PRODUCTION_LINES → get_next_line s = none) ∧
    get_next_line "Delivery" = none := by
  refine ⟨fun i hi => gnl_of_getElem? hi,
    fun h => nextAfter_eq_none_of_not_mem _ _ h, by decide⟩

/-- Witness for C10 at the concrete inputs `"Paint"` (position 1, so the
successor is returned) and `"ZZZZZ"` (not a production line, so `none`). -/
theorem c10_witness :
    get_next_line "Paint" = PRODUCTION_LINES[2]? ∧
    get_next_line "ZZZZZ" = none :=
  ⟨(c10_get_next_line_total "Paint").1 1 (by decide),
   (c10_get_next_line_total "ZZZZZ").2.1 (by decide)⟩

/-! ## C3: Completed on the last station -/

/-- C3 counterexample: on a record whose current line is the last line
`"Delivery"`, applying (`"Delivery"`, `Completed`) does not succeed: the
handler shows the "already reached the final line" error and the last
line's status is not set to `Completed`, contradicting the claim that the
transition succeeds and leaves every station `Completed`. -/
theorem c3_counterexample :
    (updateStatus sampleDelivery "Delivery" Status.completed 5).finalLineError
      = true ∧
    (updateStatus sampleDelivery "Delivery" Status.completed 5).record.lineStatus[13]?
      ≠ some Status.completed := by decide

/-- C3 (amended): for every record whose current line is the last line
`"Delivery"`, applying (`"Delivery"`, `Completed`) is rejected with the
final-line error; no station status or per-station timestamp changes and
the current line is unchanged, but `Last Updated` is still set to `now`. -/
theorem c3_amended_final_line_rejected (v : Vehicle) (now : Nat)
    (hcur : v.currentLine = "Delivery") :
    updateStatus v "Delivery" Status.completed now =
      { record := { v with lastUpdated := now }, finalLineError := true } := by
  have hgnl : get_next_line "Delivery" = none := by decide
  simp [updateStatus, hcur, hgnl]

/-- Witness for C3 (amended) at `sampleDelivery` and `now = 5`. -/
theorem c3_witness :
    updateStatus sampleDelivery "Delivery" Status.completed 5 =
      { record := { sampleDelivery with lastUpdated := 5 },
        finalLineError := true } :=
  c3_amended_final_line_rejected sampleDelivery 5 rfl

/-! ## C4: atomicity of the update handler -/

/-- C4 counterexample: the handler is not atomic.  On a record at the last
line, completing it reports the final-line error, yet the record is
mutated: `Last Updated` is assigned on the error path as well (source line
316 runs after the `else` of line 310), and the mutated table is saved. -/
theorem c4_counterexample :
    (updateStatus sampleDelivery "Delivery" Status.completed 5).finalLineError
      = true ∧
    (updateStatus sampleDelivery "Delivery" Status.completed 5).record
      ≠ sampleDelivery := by decide

/-- C4 (amended): every call sets `Last Updated` to `now` — also when the
final-line error is reported; on that error path `Last Updated` is the
only mutated field. -/
theorem c4_amended_error_path_touches_timestamp (v : Vehicle) (L : String)
    (s : Status) (now : Nat) :
    (updateStatus v L s now).record.lastUpdated = now ∧
    ((updateStatus v L s now).finalLineError = true →
      (updateStatus v L s now).record = { v with lastUpdated := now }) := by
  by_cases hs : s = Status.completed
  · subst hs
    cases hgnl : get_next_line v.currentLine <;>
      simp [updateStatus, hgnl, setStatus, setTime]
  · simp [updateStatus, hs, setStatus, setTime]

/-- Witness for C4 (amended) at `sampleDelivery`, discharging the
error-path implication concretely. -/
theorem c4_witness :
    (updateStatus sampleDelivery "Delivery" Status.completed 5).record.lastUpdated
      = 5 ∧
    (updateStatus sampleDelivery "Delivery" Status.completed 5).record =
      { sampleDelivery with lastUpdated := 5 } :=
  ⟨(c4_amended_error_path_touches_timestamp sampleDelivery "Delivery"
      Status.completed 5).1,
   (c4_amended_error_path_touches_timestamp sampleDelivery "Delivery"
      Status.completed 5).2 (by decide)⟩

/-! ## C7: state of a freshly added record -/

/-- C7: a record built by the Add Vehicle handler has `Current Line` equal
to the first production line `"Body Shop"`, the first line's status
`In Progress` with its timestamp set, and every other line's status and
timestamp unset. -/
theorem c7_add_initial_state (vin : List Char) (model : String)
    (startTime now : Nat) :
    (mkVehicle vin model startTime now).currentLine = "Body Shop" ∧
    PRODUCTION_LINES.head? = some "Body Shop" ∧
    (mkVehicle vin model startTime now).lineStatus =
      [Status.inProgress, .unset, .unset, .unset, .unset, .unset, .unset,
       .unset, .unset, .unset, .unset, .unset, .unset, .unset] ∧
    (mkVehicle vin model startTime now).lineTime =
      [some now, none, none, none, none, none, none,
       none, none, none, none, none, none, none] := by
  refine ⟨rfl, rfl, ?_, ?_⟩ <;> simp [mkVehicle, PRODUCTION_LINES]

/-! ## C9: initialization of an empty backing table -/

/-- C9: on a completely empty backing table, the `sheet.update` call of
`load_data` writes exactly the header cells — the five base columns
followed by a status column and a `_time` column per production line — and
no other cell: the payload's trailing `[]` row carries no cells. -/
theorem c9_init_writes_header_only :
    sheet_update_cells load_data_init_payload =
      header_columns.enum.map (fun q => (0, q.1, q.2)) ∧
    header_columns =
      ["VIN", "Model", "Current Line", "Start Time", "Last Updated"] ++
        (PRODUCTION_LINES.map (fun line => [line, line ++ "_time"])).flatten := by
  constructor <;> rfl

/-! ## C1: auto-advance on completing the current (non-last) line -/

/-- C1: for every record and every non-last line `S` of the sequence
(position `i`, successor `S'` at position `i + 1`), if `S` is the record's
current line, applying (`S`, `Completed`) succeeds and yields a record
whose current line is `S'`, with `S`'s status `Completed` (timestamp
`now`) and `S'`'s status `In Progress` (timestamp `now`); `Last Updated`
is set to `now`. -/
theorem c1_completed_auto_advance (v : Vehicle) (i : Nat) (S S' : String)
    (now : Nat)
    (hS : PRODUCTION_LINES[i]? = some S)
    (hS' : PRODUCTION_LINES[i + 1]? = some S')
    (hcur : v.currentLine = S)
    (hlen : v.lineStatus.length = PRODUCTION_LINES.length)
    (hlent : v.lineTime.length = PRODUCTION_LINES.length) :
    (updateStatus v S Status.completed now).finalLineError = false ∧
    (updateStatus v S Status.completed now).record.currentLine = S' ∧
    (updateStatus v S Status.completed now).record.lineStatus[i]? =
      some Status.completed ∧
    (updateStatus v S Status.completed now).record.lineTime[i]? =
      some (some now) ∧
    (updateStatus v S Status.completed now).record.lineStatus[i + 1]? =
      some Status.inProgress ∧
    (updateStatus v S Status.completed now).record.lineTime[i + 1]? =
      some (some now) ∧
    (updateStatus v S Status.completed now).record.lastUpdated = now := by
  have hgnl : get_next_line v.currentLine = some S' := by
    rw [hcur, gnl_of_getElem? hS, hS']
  have hiS : lineIdx S = i := lineIdx_of_getElem? hS
  have hiS' : lineIdx S' = i + 1 := lineIdx_of_getElem? hS'
  have hi1 : i + 1 < PRODUCTION_LINES.length := prod_lines_lt_of_getElem? hS'
  have hi : i < v.lineStatus.length := by rw [hlen]; omega
  have hit : i < v.lineTime.length := by rw [hlent]; omega
  have hi1s : i + 1 < v.lineStatus.length := by rw [hlen]; omega
  have hi1t : i + 1 < v.lineTime.length := by rw [hlent]; omega
  have hrec : updateStatus v S Status.completed now =
      { record := { v with
          currentLine := S',
          lastUpdated := now,
          lineStatus :=
            (v.lineStatus.set i Status.completed).set (i + 1) Status.inProgress,
          lineTime := ((v.lineTime.set i (some now)).set (i + 1)
            (some now)).set (i + 1) (some now) },
        finalLineError := false } := by
    simp [updateStatus, hgnl, setStatus, setTime, hiS, hiS']
  rw [hrec]
  refine ⟨rfl, rfl, ?_, ?_, ?_, ?_, rfl⟩
  · show ((v.lineStatus.set i Status.completed).set (i + 1)
      Status.inProgress)[i]? = some Status.completed
    rw [List.getElem?_set_ne (by omega), List.getElem?_set_self hi]
  · show (((v.lineTime.set i (some now)).set (i + 1) (some now)).set (i + 1)
      (some now))[i]? = some (some now)
    rw [List.getElem?_set_ne (by omega), List.getElem?_set_ne (by omega),
      List.getElem?_set_self hit]
  · show ((v.lineStatus.set i Status.completed).set (i + 1)
      Status.inProgress)[i + 1]? = some Status.inProgress
    rw [List.getElem?_set_self (by simpa using hi1s)]
  · show (((v.lineTime.set i (some now)).set (i + 1) (some now)).set (i + 1)
      (some now))[i + 1]? = some (some now)
    rw [List.getElem?_set_self (by simpa using hi1t)]

/-- Witness for C1 at `samplePaint` (current line `"Paint"`, position 1),
completing `"Paint"` at `now = 5`. -/
theorem c1_witness :
    (updateStatus samplePaint "Paint" Status.completed 5).finalLineError
      = false ∧
    (updateStatus samplePaint "Paint" Status.completed 5).record.currentLine
      = "TRIM" ∧
    (updateStatus samplePaint "Paint" Status.completed 5).record.lineStatus[1]?
      = some Status.completed ∧
    (updateStatus samplePaint "Paint" Status.completed 5).record.lineTime[1]?
      = some (some 5) ∧
    (updateStatus samplePaint "Paint" Status.completed 5).record.lineStatus[2]?
      = some Status.inProgress ∧
    (updateStatus samplePaint "Paint" Status.completed 5).record.lineTime[2]?
      = some (some 5) ∧
    (updateStatus samplePaint "Paint" Status.completed 5).record.lastUpdated
      = 5 :=
  c1_completed_auto_advance samplePaint 1 "Paint" "TRIM" 5 (by decide)
    (by decide) rfl (by decide) (by decide)

/-! ## C2: backward move to an earlier station -/

/-- C2 counterexample: `samplePaint` sits at `"Paint"` (position 1);
reverting the strictly earlier `"Body Shop"` (position 0) to `In Progress`
is **not** rejected — no error of any kind is reported (the handler's only
error indicator stays `false`) — and the record **is** modified,
contradicting the claim that the backward move fails and leaves the record
unmodified. -/
theorem c2_counterexample :
    (updateStatus samplePaint "Body Shop" Status.inProgress 5).finalLineError
      = false ∧
    (updateStatus samplePaint "Body Shop" Status.inProgress 5).record
      ≠ samplePaint := by decide

/-- C2 (amended): the backward move is silently applied.  For every record
(current line at position `i`) and every line `S` at a strictly earlier
position `j`, applying (`S`, `In Progress`) reports no error, sets `S`'s
status to `In Progress` with timestamp `now`, sets `Last Updated` to
`now`, and leaves the current line unchanged. -/
theorem c2_amended_backward_silently_applied (v : Vehicle) (i j : Nat)
    (S : String) (now : Nat)
    (hS : PRODUCTION_LINES[j]? = some S)
    (hcur : PRODUCTION_LINES[i]? = some v.currentLine)
    (hji : j < i)
    (hlen : v.lineStatus.length = PRODUCTION_LINES.length)
    (hlent : v.lineTime.length = PRODUCTION_LINES.length) :
    (updateStatus v S Status.inProgress now).finalLineError = false ∧
    (updateStatus v S Status.inProgress now).record.currentLine
      = v.currentLine ∧
    (updateStatus v S Status.inProgress now).record.lineStatus[j]?
      = some Status.inProgress ∧
    (updateStatus v S Status.inProgress now).record.lineTime[j]?
      = some (some now) ∧
    (updateStatus v S Status.inProgress now).record.lastUpdated = now := by
  have hjS : lineIdx S = j := lineIdx_of_getElem? hS
  have hj : j < v.lineStatus.length := by
    rw [hlen]; exact prod_lines_lt_of_getElem? hS
  have hjt : j < v.lineTime.length := by
    rw [hlent]; exact prod_lines_lt_of_getElem? hS
  have hrec : updateStatus v S Status.inProgress now =
      { record := { v with
          lastUpdated := now,
          lineStatus := v.lineStatus.set j Status.inProgress,
          lineTime := v.lineTime.set j (some now) },
        finalLineError := false } := by
    simp [updateStatus, setStatus, setTime, hjS]
  rw [hrec]
  exact ⟨rfl, rfl, List.getElem?_set_self hj, List.getElem?_set_self hjt, rfl⟩

/-- Witness for C2 (amended) at `samplePaint` (current line position 1),
station `"Body Shop"` (position 0), `now = 5`. -/
theorem c2_witness :
    (updateStatus samplePaint "Body Shop" Status.inProgress 5).finalLineError
      = false ∧
    (updateStatus samplePaint "Body Shop" Status.inProgress 5).record.currentLine
      = samplePaint.currentLine ∧
    (updateStatus samplePaint "Body Shop" Status.inProgress 5).record.lineStatus[0]?
      = some Status.inProgress ∧
    (updateStatus samplePaint "Body Shop" Status.inProgress 5).record.lineTime[0]?
      = some (some 5) ∧
    (updateStatus samplePaint "Body Shop" Status.inProgress 5).record.lastUpdated
      = 5 :=
  c2_amended_backward_silently_applied samplePaint 1 0 "Body Shop" 5
    (by decide) (by decide) (by decide) (by decide) (by decide)

/-! ## C5: VIN validation -/

/-- C5 counterexample: the claim fails in two ways.  `"ab"` normalizes to
the two-character `"AB"`, which the claim says must be rejected as shorter
than 5, but the handler zero-pads it with `zfill(5)` and accepts
`"000AB"`; and `"A-BCD"` contains a non-alphanumeric character, but there
is no alphanumeric check at all, so it is accepted unchanged. -/
theorem c5_counterexample :
    validate_id ['a', 'b'] = some ['0', '0', '0', 'A', 'B'] ∧
    validate_id ['A', '-', 'B', 'C', 'D'] = some ['A', '-', 'B', 'C', 'D'] := by
  decide

/-- C5 (amended): `validate_id` strips whitespace, uppercases and
left-pads the input with `'0'` to length 5 (`zfill`); it fails with the
format error exactly when the stripped input is longer than 5 characters.
There is no alphanumeric requirement, and nothing whose normalized form is
shorter than 5 is rejected — it is padded instead. -/
theorem c5_amended_pad_and_length_only (raw : List Char) :
    validate_id raw =
      if (pystrip raw).length ≤ 5 then some (normalizeVin raw) else none := by
  have hlen : (normalizeVin raw).length = max 5 (pystrip raw).length := by
    simp [normalizeVin, upperChars, zfill]
    omega
  simp only [validate_id]
  by_cases hk : (pystrip raw).length ≤ 5
  · rw [if_pos (show (normalizeVin raw).length = 5 by omega), if_pos hk]
  · rw [if_neg (show ¬ (normalizeVin raw).length = 5 by omega), if_neg hk]

/-! ## C8: idempotence of VIN validation on valid identifiers -/

theorem isAlphanum_false_of_isWhitespace {c : Char}
    (h : c.isWhitespace = true) : c.isAlphanum = false := by
  simp [Char.isWhitespace] at h
  rcases h with ((h | h) | h) | h <;> subst h <;> decide

theorem pyIsSpace_false_of_isAlphanum {c : Char}
    (h : c.isAlphanum = true) : pyIsSpace c = false := by
  cases hw : c.isWhitespace with
  | false => simpa [pyIsSpace] using hw
  | true => rw [isAlphanum_false_of_isWhitespace hw] at h; cases h

theorem char_toNat_ofNat_valid {n : Nat} (h : n < 55296) :
    (Char.ofNat n).toNat = n := by
  have hv : n.isValidChar := Or.inl h
  rw [Char.ofNat, dif_pos hv]
  rfl

theorem toUpper_toNat_of_lower {c : Char}
    (h : 97 ≤ c.toNat ∧ c.toNat ≤ 122) :
    c.toUpper.toNat = c.toNat - 32 := by
  simp only [Char.toUpper]
  rw [if_pos (by omega)]
  exact char_toNat_ofNat_valid (by omega)

theorem toUpper_eq_self_of_not_lower {c : Char}
    (h : ¬(97 ≤ c.toNat ∧ c.toNat ≤ 122)) : c.toUpper = c := by
  simp only [Char.toUpper]
  rw [if_neg (by omega)]

theorem toUpper_toUpper (c : Char) : c.toUpper.toUpper = c.toUpper := by
  by_cases h : 97 ≤ c.toNat ∧ c.toNat ≤ 122
  · have h1 : c.toUpper.toNat = c.toNat - 32 := toUpper_toNat_of_lower h
    exact toUpper_eq_self_of_not_lower (by omega)
  · rw [toUpper_eq_self_of_not_lower h, toUpper_eq_self_of_not_lower h]

theorem toUpper_not_ws_of_alnum {c : Char} (h : c.isAlphanum = true) :
    pyIsSpace c.toUpper = false := by
  by_cases hl : 97 ≤ c.toNat ∧ c.toNat ≤ 122
  · have h1 : c.toUpper.toNat = c.toNat - 32 := toUpper_toNat_of_lower hl
    cases hw : c.toUpper.isWhitespace with
    | false => simpa [pyIsSpace] using hw
    | true =>
      exfalso
      simp [Char.isWhitespace] at hw
      have hsp : Char.toNat ' ' = 32 := by decide
      have hta : Char.toNat '\t' = 9 := by decide
      have hcr : Char.toNat '\r' = 13 := by decide
      have hnl : Char.toNat '\n' = 10 := by decide
      rcases hw with ((hw | hw) | hw) | hw <;> rw [hw] at h1 <;>
        first
        | (rw [hsp] at h1; omega)
        | (rw [hta] at h1; omega)
        | (rw [hcr] at h1; omega)
        | (rw [hnl] at h1; omega)
  · rw [toUpper_eq_self_of_not_lower hl]
    exact pyIsSpace_false_of_isAlphanum h

theorem lstripChars_eq_self {s : List Char}
    (h : ∀ c ∈ s, pyIsSpace c = false) : lstripChars s = s := by
  cases s with
  | nil => rfl
  | cons c cs => simp [lstripChars, h c (List.mem_cons_self c cs)]

theorem pystrip_eq_self {s : List Char}
    (h : ∀ c ∈ s, pyIsSpace c = false) : pystrip s = s := by
  unfold pystrip
  rw [lstripChars_eq_self h,
    lstripChars_eq_self (fun c hc => h c (List.mem_reverse.mp hc)),
    List.reverse_reverse]

/-- C8: on a valid identifier — exactly 5 characters, all alphanumeric —
`validate_id` is idempotent: feeding its output back in returns the same
result.  (The output is the uppercased input; stripping, padding and a
second uppercasing leave it unchanged.) -/
theorem c8_validate_id_idempotent (x : List Char) (hlen : x.length = 5)
    (halnum : ∀ c ∈ x, c.isAlphanum = true) :
    (validate_id x).bind validate_id = validate_id x := by
  have hstrip : pystrip x = x :=
    pystrip_eq_self (fun c hc => pyIsSpace_false_of_isAlphanum (halnum c hc))
  have hulen : (upperChars x).length = 5 := by simp [upperChars, hlen]
  have hzfill : zfill 5 (upperChars x) = upperChars x := by
    simp [zfill, hulen]
  have huu : upperChars (upperChars x) = upperChars x := by
    unfold upperChars
    rw [List.map_map]
    exact List.map_congr_left (fun c _ => toUpper_toUpper c)
  have hval : validate_id x = some (upperChars x) := by
    simp [validate_id, normalizeVin, hstrip, hzfill, huu, hulen]
  have halnum2 : ∀ c ∈ upperChars x, pyIsSpace c = false := by
    intro c hc
    rcases List.mem_map.mp hc with ⟨d, hd, rfl⟩
    exact toUpper_not_ws_of_alnum (halnum d hd)
  have hval2 : validate_id (upperChars x) = some (upperChars x) := by
    simp [validate_id, normalizeVin, pystrip_eq_self halnum2, hzfill, huu,
      hulen]
  simp [hval, hval2]

/-- Witness for C8 at the valid identifier `"AB123"`. -/
theorem c8_witness :
    (validate_id ['A', 'B', '1', '2', '3']).bind validate_id =
      validate_id ['A', 'B', '1', '2', '3'] :=
  c8_validate_id_idempotent ['A', 'B', '1', '2', '3'] (by decide) (by decide)

/-! ## C6: bulk update over a mixed list of VINs -/

theorem bulkStep_vin (s : Status) (now : Nat) (v : Vehicle) :
    (bulkStep s now v).vin = v.vin := by
  by_cases hs : s = Status.completed
  · subst hs
    cases hgnl : get_next_line v.currentLine <;>
      simp [bulkStep, hgnl, setStatus, setTime]
  · simp [bulkStep, hs, setStatus, setTime]

theorem map_if_vin_eq_self {w : List Char} {f : Vehicle → Vehicle}
    {st : List Vehicle} (h : ∀ v ∈ st, v.vin ≠ w) :
    st.map (fun v => if v.vin = w then f v else v) = st := by
  have hcongr : st.map (fun v => if v.vin = w then f v else v) = st.map id :=
    List.map_congr_left (fun v hv => by rw [if_neg (h v hv)]; rfl)
  simpa using hcongr

theorem bulkFold_step_eq (s : Status) (now : Nat) (w : List Char)
    (st : List Vehicle) (hnd : (st.map Vehicle.vin).Nodup) :
    (if st.any (fun v => v.vin == w) then
        modifyFirst (fun v => v.vin == w) (bulkStep s now) st
      else st) =
    st.map (fun v => if v.vin = w then bulkStep s now v else v) := by
  induction st with
  | nil => simp [modifyFirst]
  | cons x xs ih =>
    rw [List.map_cons, List.nodup_cons] at hnd
    by_cases hx : x.vin = w
    · have hany : (x :: xs).any (fun v => v.vin == w) = true := by
        simp [List.any_cons, hx]
      rw [if_pos hany, List.map_cons, if_pos hx]
      show (if (x.vin == w) = true then bulkStep s now x :: xs
        else x :: modifyFirst (fun v => v.vin == w) (bulkStep s now) xs) = _
      rw [if_pos (by simp [hx])]
      congr 1
      symm
      apply map_if_vin_eq_self
      intro v hv hvw
      exact hnd.1 (List.mem_map.mpr ⟨v, hv, by rw [hvw, hx]⟩)
    · have hbx : (x.vin == w) = false := by simp [hx]
      rw [List.map_cons, if_neg hx]
      by_cases hxs : xs.any (fun v => v.vin == w) = true
      · rw [if_pos (by simp [List.any_cons, hbx, hxs])]
        show (if (x.vin == w) = true then bulkStep s now x :: xs
          else x :: modifyFirst (fun v => v.vin == w) (bulkStep s now) xs) = _
        rw [if_neg (by simp [hx] : ¬ ((x.vin == w) = true))]
        congr 1
        have hxs' := ih hnd.2
        rwa [if_pos hxs] at hxs'
      · have hxsf : xs.any (fun v => v.vin == w) = false :=
          Bool.eq_false_iff.mpr hxs
        rw [if_neg (by simp [List.any_cons, hbx, hxsf])]
        congr 1
        symm
        apply map_if_vin_eq_self
        intro v hv hvw
        have := (List.any_eq_false.mp hxsf) v hv
        simp [hvw] at this

theorem bulkFold_eq (s : Status) (now : Nat) (ws : List (List Char))
    (st : List Vehicle) (hnd : (st.map Vehicle.vin).Nodup)
    (hndw : ws.Nodup) :
    ws.foldl (fun st vin =>
        if st.any (fun v => v.vin == vin) then
          modifyFirst (fun v => v.vin == vin) (bulkStep s now) st
        else st) st =
      st.map (fun v => if v.vin ∈ ws then bulkStep s now v else v) := by
  induction ws generalizing st with
  | nil =>
    simp only [List.foldl_nil, List.not_mem_nil, if_false]
    have : st.map (fun v => if v.vin ∈ ([] : List (List Char))
        then bulkStep s now v else v) = st.map id :=
      List.map_congr_left (fun v _ => by simp)
    simpa using this
  | cons w ws ih =>
    rw [List.nodup_cons] at hndw
    rw [List.foldl_cons, bulkFold_step_eq s now w st hnd]
    have hvins : (st.map (fun v => if v.vin = w then bulkStep s now v
        else v)).map Vehicle.vin = st.map Vehicle.vin := by
      rw [List.map_map]
      exact List.map_congr_left (fun v _ => by
        by_cases hvw : v.vin = w <;> simp [hvw, bulkStep_vin])
    rw [ih _ (by rw [hvins]; exact hnd) hndw.2, List.map_map]
    apply List.map_congr_left
    intro v _
    simp only [Function.comp]
    by_cases hvw : v.vin = w
    · rw [if_pos hvw, bulkStep_vin, hvw, if_neg hndw.1,
        if_pos (List.mem_cons_self w ws)]
    · rw [if_neg hvw]
      by_cases hm : v.vin ∈ ws
      · rw [if_pos hm, if_pos (List.mem_cons_of_mem w hm)]
      · rw [if_neg hm, if_neg (by simp [List.mem_cons, hvw, hm])]

/-- C6 counterexample: the store holds the single vehicle `samplePaint`
(VIN `"00001"`); the bulk handler is given the valid id `"00001"` and the
invalid id `"99999"`.  No per-id outcome is produced: the success message
counts 2 updated vehicles even though only one id matched a record, and
the resulting table is exactly the table obtained without submitting the
invalid id at all — the invalid id is silently skipped, no `NotFound` is
reported. -/
theorem c6_counterexample :
    (bulkUpdate [samplePaint]
      [['0', '0', '0', '0', '1'], ['9', '9', '9', '9', '9']]
      Status.repairNeeded 5).2 = 2 ∧
    (bulkUpdate [samplePaint]
      [['0', '0', '0', '0', '1'], ['9', '9', '9', '9', '9']]
      Status.repairNeeded 5).1.length = 1 ∧
    (bulkUpdate [samplePaint]
      [['0', '0', '0', '0', '1'], ['9', '9', '9', '9', '9']]
      Status.repairNeeded 5).1 =
      (bulkUpdate [samplePaint] [['0', '0', '0', '0', '1']]
        Status.repairNeeded 5).1 := by decide

/-- C6 (amended): `bulk_update` applies the transition independently to
each entered id (no rollback of one id's update because of another id),
but it reports no per-id outcomes: ids matching no record are silently
skipped — there is no `NotFound` — and the announced count is the number
of entered ids, found or not.  When the stored VINs and the normalized
entered ids are duplicate-free, the final table is the pointwise image of
the old one: every record whose VIN was entered is stepped once, every
other record is untouched. -/
theorem c6_amended_bulk_no_per_id_outcomes (store : List Vehicle)
    (raws : List (List Char)) (s : Status) (now : Nat)
    (hnd : (store.map Vehicle.vin).Nodup)
    (hndw : (raws.map bulkNormVin).Nodup) :
    (bulkUpdate store raws s now).2 = raws.length ∧
    (bulkUpdate store raws s now).1 =
      store.map (fun v =>
        if v.vin ∈ raws.map bulkNormVin then bulkStep s now v else v) := by
  constructor
  · simp [bulkUpdate]
  · exact bulkFold_eq s now (raws.map bulkNormVin) store hnd hndw

/-- Witness for C6 (amended) on the one-record store and a mixed valid /
invalid id list. -/
theorem c6_witness :
    (bulkUpdate [samplePaint]
      [['0', '0', '0', '0', '1'], ['9', '9', '9', '9', '9']]
      Status.repairNeeded 7).2 = 2 ∧
    (bulkUpdate [samplePaint]
      [['0', '0', '0', '0', '1'], ['9', '9', '9', '9', '9']]
      Status.repairNeeded 7).1 =
      [samplePaint].map (fun v =>
        if v.vin ∈ [['0', '0', '0', '0', '1'],
            ['9', '9', '9', '9', '9']].map bulkNormVin
        then bulkStep Status.repairNeeded 7 v else v) :=
  c6_amended_bulk_no_per_id_outcomes [samplePaint]
    [['0', '0', '0', '0', '1'], ['9', '9', '9', '9', '9']]
    Status.repairNeeded 7 (by decide) (by decide)

/-- Witness for C5 (amended) at the two-character input `"ab"`: it is
accepted (padded), not rejected. -/
theorem c5_witness :
    validate_id ['a', 'b'] =
      if (pystrip ['a', 'b']).length ≤ 5 then some (normalizeVin ['a', 'b'])
      else none :=
  c5_amended_pad_and_length_only ['a', 'b']

/-- Witness for C7 at a concrete VIN, model, start time and `now`. -/
theorem c7_witness :
    (mkVehicle ['0', '0', '0', '1', '0'] "C43" 3 4).currentLine
      = "Body Shop" ∧
    PRODUCTION_LINES.head? = some "Body Shop" ∧
    (mkVehicle ['0', '0', '0', '1', '0'] "C43" 3 4).lineStatus =
      [Status.inProgress, .unset, .unset, .unset, .unset, .unset, .unset,
       .unset, .unset, .unset, .unset, .unset, .unset, .unset] ∧
    (mkVehicle ['0', '0', '0', '1', '0'] "C43" 3 4).lineTime =
      [some 4, none, none, none, none, none, none,
       none, none, none, none, none, none, none] :=
  c7_add_initial_state ['0', '0', '0', '1', '0'] "C43" 3 4
